import Mathlib

/-!
Verification of the Hireflow360 candidate-profile engine.

This development shallowly embeds the conversational field-state model of the
backend (`backend/app/services/candidate_service.py`,
`backend/app/services/messaging_service.py`,
`backend/app/services/resume_service.py`,
`backend/app/services/resume_parser.py`,
`backend/app/api/messaging.py`, `backend/app/schemas/schemas.py`) and proves
or refutes the stated properties of merging, pending-field selection, text
extraction gating and reply classification.

Conventions: Python JSON values are modelled by `JsonValue` with Python
truthiness; confidences are rationals; a candidate's
`conversation_state["fields"]` dict is an insertion-ordered association list
`ConvFields` (Python dicts preserve insertion order).
-/

namespace Hireflow

/-- A JSON-ish value as stored in `conversation_state` dicts. -/
inductive JsonValue where
  | vNone
  | vStr (s : String)
  | vInt (n : Int)
  | vList (l : List String)
  | vBool (b : Bool)
  deriving DecidableEq, Repr

open JsonValue

/-- Python truthiness of a `JsonValue` (`if value:`). -/
def JsonValue.truthy : JsonValue → Bool
  | vNone => false
  | vStr s => !s.toList.isEmpty
  | vInt n => n != 0
  | vList l => !l.isEmpty
  | vBool b => b

/-- `schemas.FieldState`: one reconciled conversational field
(`value`, `confidence`, `asked`, `answered`, `source`). -/
structure FieldState where
  value : JsonValue
  confidence : ℚ
  asked : Bool
  answered : Bool
  source : Option String
  deriving DecidableEq, Repr

/-- The pydantic validation of `schemas.FieldState`: the only constrained
field is `confidence` with `Field(ge=0, le=1)`. -/
def validFieldState (st : FieldState) : Bool :=
  decide (0 ≤ st.confidence) && decide (st.confidence ≤ 1)

/-- `conversation_state["fields"]`: an insertion-ordered map from field key to
field state. -/
abbrev ConvFields := List (String × FieldState)

/-- Dict lookup: first entry with the given key. -/
def lookupField : ConvFields → String → Option FieldState
  | [], _ => none
  | kv :: rest, k => if kv.1 = k then some kv.2 else lookupField rest k

/-- In-place transformation of the entry at a key (no-op when absent),
modelling mutation of `fields[key]`. -/
def setField (fs : ConvFields) (k : String) (g : FieldState → FieldState) : ConvFields :=
  fs.map (fun kv => if kv.1 = k then (kv.1, g kv.2) else kv)

/-- Dict assignment `fields[key] = st`: overwrite when present, append when
absent (Python dict insertion order). -/
def setFieldState (fs : ConvFields) (k : String) (st : FieldState) : ConvFields :=
  if (lookupField fs k).isSome then setField fs k (fun _ => st) else fs ++ [(k, st)]

/-- The `extracted_data` dict of a reply analysis. -/
abbrev ExtractedData := List (String × JsonValue)

/-- Dict lookup in `extracted_data`. -/
def lookupData : ExtractedData → String → Option JsonValue
  | [], _ => none
  | kv :: rest, k => if kv.1 = k then some kv.2 else lookupData rest k

/-- Lookup in a `confidence_scores` dict. -/
def lookupScore : List (String × ℚ) → String → Option ℚ
  | [], _ => none
  | kv :: rest, k => if kv.1 = k then some kv.2 else lookupScore rest k

section Strings

/-- `pre.isPrefixList hay`: character-list version of Python prefix test. -/
def prefixOfChars : List Char → List Char → Bool
  | [], _ => true
  | _ :: _, [] => false
  | a :: as, b :: bs => a == b && prefixOfChars as bs

/-- `hasSubChars needle hay`: some suffix of `hay` starts with `needle`. -/
def hasSubChars (needle : List Char) : List Char → Bool
  | [] => needle.isEmpty
  | c :: rest => prefixOfChars needle (c :: rest) || hasSubChars needle rest

/-- Python `needle in hay` for strings. -/
def strContains (hay needle : String) : Bool :=
  hasSubChars needle.toList hay.toList

/-- `any(w in text for w in ws)`. -/
def hitAny (text : String) (ws : List String) : Bool :=
  ws.any (fun w => strContains text w)

/-- Python `str.lower()` (ASCII case folding, as used on the keyword sets). -/
def pyLower (s : String) : String :=
  String.mk (s.toList.map Char.toLower)

/-- Python whitespace (`str.strip()` default set). -/
def pyIsSpace (c : Char) : Bool :=
  c == ' ' || c == '\t' || c == '\n' || c == '\r' || c == '\x0b' || c == '\x0c'

/-- Python `str.strip()`. -/
def pyStrip (s : String) : String :=
  String.mk (((s.toList.dropWhile pyIsSpace).reverse.dropWhile pyIsSpace).reverse)

end Strings

/-! ## Reply classification

`backend/app/api/messaging.py::receive_reply` (lines 197-231) classifies an
incoming reply from its lowercased content alone, and
`backend/app/services/ai_service.py::_analyze_reply_fallback` is the
deterministic fallback of `analyze_candidate_reply`. -/

/-- The decline phrases of `receive_reply`. -/
def declinePhrases : List String := ["not interested", "no thanks", "pass", "decline"]

/-- The question indicators of `receive_reply`. -/
def questionIndicators : List String :=
  ["?", "what", "when", "how", "salary", "compensation",
   "package", "pay", "benefits", "remote", "hybrid",
   "location", "why", "who", "which"]

/-- The affirmative words of `receive_reply`. -/
def affirmativeWords : List String := ["yes", "interested", "available", "sure"]

/-- The clarification phrases of `receive_reply`. -/
def clarificationPhrases : List String := ["clarif", "more info"]

/-- Compensation sub-topic words of the question branch. -/
def salaryWords : List String := ["salary", "compensation", "pay", "package"]

/-- Work-arrangement sub-topic words of the question branch. -/
def remoteWords : List String := ["remote", "hybrid", "office"]

/-- The classification outcome recorded on the incoming message by
`receive_reply`. -/
structure ReplyClassification where
  classification : String
  suggestedReply : String
  requiresHrReview : Bool
  aiSuggestedReply : Option String
  deriving DecidableEq, Repr

/-- The inline mock classifier of `receive_reply`
(`backend/app/api/messaging.py` lines 197-231), a function of the reply
content only. -/
def receiveReplyClassify (content : String) : ReplyClassification :=
  let lowerText := pyLower content
  if hitAny lowerText declinePhrases then
    { classification := "not_interested",
      suggestedReply := "Thank you for your time. We\x27ll keep your profile on file.",
      requiresHrReview := false, aiSuggestedReply := none }
  else if hitAny lowerText questionIndicators then
    let ai :=
      if hitAny lowerText salaryWords then
        "Great question! The compensation range is competitive. Would you like to discuss further?"
      else if hitAny lowerText remoteWords then
        "This role offers flexible work arrangements. Happy to discuss details."
      else
        "Thanks for your question! I\x27d be happy to provide more details."
    { classification := "question", suggestedReply := ai,
      requiresHrReview := true, aiSuggestedReply := some ai }
  else if hitAny lowerText affirmativeWords then
    { classification := "interested",
      suggestedReply := "Fantastic! Let\x27s schedule a call to discuss further.",
      requiresHrReview := false, aiSuggestedReply := none }
  else if hitAny lowerText clarificationPhrases then
    { classification := "needs_clarification",
      suggestedReply := "Of course! Let me provide more details: ",
      requiresHrReview := false, aiSuggestedReply := none }
  else
    { classification := "interested",
      suggestedReply := "Thank you for your interest! ",
      requiresHrReview := false, aiSuggestedReply := none }

/-- The result dict of `_analyze_reply_fallback`. -/
structure FallbackAnalysis where
  classification : String
  extractedData : ExtractedData
  candidateQuestions : List String
  requiresHrReview : Bool
  suggestedReply : Option String
  deriving DecidableEq, Repr

/-- `ai_service.AIService._analyze_reply_fallback` (lines 481-497): the
deterministic keyword classifier used when the AI backend fails. -/
def analyzeReplyFallback (replyText : String) : FallbackAnalysis :=
  let textLower := pyLower replyText
  let classification :=
    if hitAny textLower ["not interested", "no thanks"] then "not_interested"
    else if strContains textLower "?" then "question"
    else "interested"
  { classification := classification, extractedData := [], candidateQuestions := [],
    requiresHrReview := classification == "question", suggestedReply := none }

/-- The candidate context available at the classification call sites
(`candidate_info` built in `process_incoming_reply` / `receive_reply`). -/
structure CandidateInfo where
  name : Option String
  status : Option String
  currentCompany : Option String
  deriving DecidableEq, Repr

/-- `receive_reply` seen with its full input boundary: the endpoint has the
candidate row and its conversation state in scope, but the classification
block reads only `reply.content`. -/
def receiveReplyClassifyWithContext (content : String) (_cand : CandidateInfo)
    (_convState : ConvFields) : ReplyClassification :=
  receiveReplyClassify content

/-- The deterministic path of `AIService.analyze_candidate_reply` seen with
its full input boundary (`reply_text`, `candidate_info`, `asked_fields`):
the fallback consumes only `reply_text`. -/
def analyzeReplyDeterministic (replyText : String) (_cand : CandidateInfo)
    (_askedFields : List String) : FallbackAnalysis :=
  analyzeReplyFallback replyText

end Hireflow

namespace Hireflow

/-! ## Field-state operations

The "merge" surface of the source:
`candidate_service.CandidateService.update_conversation_state` (wholesale
per-field replacement, lines 324-374),
`messaging_service.MessagingService._update_conversation_state_from_reply`
(reply-sourced update, lines 418-452), the two state initializers
(`candidate_service._initialize_conversation_state` lines 555-590,
`resume_service._create_conversation_state` lines 668-718), the pending-field
selectors and the aggregate-confidence computations. -/

/-- `messaging_service.MessagingService._map_to_conversation_key`. -/
def mapToConversationKey (field : String) : String :=
  if field = "location" then "location"
  else if field = "notice_period" then "noticePeriod"
  else if field = "expected_salary" then "expectedSalary"
  else if field = "portfolio_url" then "portfolioUrl"
  else if field = "experience" then "experience"
  else if field = "skills" then "skills"
  else field

/-- The per-field body of the asked-fields loop in
`_update_conversation_state_from_reply`: if the reply extracted the field,
overwrite value, set `confidence = 0.9`, `source = "reply"`, `answered`;
otherwise mark it asked and unanswered. -/
def applyReplyToField (extracted : ExtractedData) (field : String)
    (st : FieldState) : FieldState :=
  match lookupData extracted (mapToConversationKey field) with
  | some v =>
      { st with answered := true, value := v, confidence := (9 : ℚ)/10,
                source := some "reply" }
  | none => { st with asked := true, answered := false }

/-- The asked-fields loop of `_update_conversation_state_from_reply`:
each asked field present in the state dict is updated in place. -/
def updateFieldsFromReply (fields : ConvFields) (askedFields : List String)
    (extracted : ExtractedData) : ConvFields :=
  askedFields.foldl
    (fun fs field =>
      if (lookupField fs field).isSome then
        setField fs field (applyReplyToField extracted field)
      else fs)
    fields

/-- Result of `_update_conversation_state_from_reply`: the mutated fields
dict and the candidate's `overall_confidence` afterwards. -/
structure ReplyUpdateResult where
  fields : ConvFields
  overallConfidence : ℚ
  deriving DecidableEq, Repr

/-- `_update_conversation_state_from_reply` (lines 418-452): update the asked
fields from the extracted data, then recompute `overall_confidence` as the
percentage of fields with a truthy value (left unchanged when the fields dict
is empty). -/
def updateConversationStateFromReply (fields : ConvFields) (overall : ℚ)
    (askedFields : List String) (extracted : ExtractedData) : ReplyUpdateResult :=
  let newFields := updateFieldsFromReply fields askedFields extracted
  if newFields.isEmpty then
    { fields := newFields, overallConfidence := overall }
  else
    let filled := (newFields.filter (fun kv => kv.2.value.truthy)).length
    let total := newFields.length
    { fields := newFields,
      overallConfidence :=
        if 0 < total then (filled : ℚ) / (total : ℚ) * 100 else 0 }

/-- `candidate_service.CandidateService._calculate_candidate_confidence`
(lines 618-634): accumulate every strictly positive per-field confidence and
average, as a percentage; 0 when none. -/
def calcCandidateConfidence (fields : ConvFields) : ℚ :=
  let acc := fields.foldl
    (fun (p : ℚ × ℕ) kv =>
      if 0 < kv.2.confidence then (p.1 + kv.2.confidence, p.2 + 1) else p)
    (0, 0)
  if 0 < acc.2 then acc.1 / (acc.2 : ℚ) * 100 else 0

/-- Result of `candidate_service.update_conversation_state`. -/
structure StateUpdateResult where
  fields : ConvFields
  overallConfidence : ℚ
  deriving DecidableEq, Repr

/-- `candidate_service.CandidateService.update_conversation_state`
(lines 324-374): wholesale replacement
`conversation_state["fields"][field_key] = field_state.dict()` followed by
`overall_confidence = _calculate_candidate_confidence(candidate)`. -/
def updateConversationState (fields : ConvFields) (fieldKey : String)
    (st : FieldState) : StateUpdateResult :=
  let newFields := setFieldState fields fieldKey st
  { fields := newFields, overallConfidence := calcCandidateConfidence newFields }

/-- `messaging_service.MessagingService._get_pending_fields` (lines 467-485):
a field is pending when `not answered or (value is None and not asked)`. -/
def getPendingFieldsMsg (fields : ConvFields) : List String :=
  (fields.filter
    (fun kv => !kv.2.answered || (kv.2.value == JsonValue.vNone && !kv.2.asked))).map
    Prod.fst

/-- `candidate_service.CandidateService.get_pending_fields` (lines 376-414):
each stored dict is revalidated through `FieldState(**field_state)` (an
invalid confidence raises and the whole call returns `[]`), and a field is
pending when `not asked or not answered`. -/
def getPendingFieldsCs (fields : ConvFields) : List String :=
  if fields.all (fun kv => validFieldState kv.2) then
    (fields.filter (fun kv => !kv.2.asked || !kv.2.answered)).map Prod.fst
  else []

/-- The fixed priority list in
`messaging_service.generate_conversational_message` (lines 90-91). -/
def priorityOrder : List String :=
  ["location", "notice_period", "expected_salary", "availability", "portfolio_url"]

/-- The pending-field limiting step of `generate_conversational_message`
(lines 88-95): when more than 3 fields are pending, keep only those on the
priority list (in priority order) and truncate to 3. -/
def limitPendingFields (pending : List String) : List String :=
  if 3 < pending.length then
    (priorityOrder.filter (fun f => pending.contains f)).take 3
  else pending

/-- The zero field state used for missing values. -/
def zeroFieldState : FieldState :=
  { value := JsonValue.vNone, confidence := 0, asked := false,
    answered := false, source := none }

/-- One field of `_initialize_conversation_state`: `if value is not None`
store it answered with confidence 0.9 for name/email and 0.7 otherwise,
source `manual`; otherwise the zero state. -/
def initFieldState (k : String) (v : JsonValue) : FieldState :=
  if v ≠ JsonValue.vNone then
    { value := v,
      confidence := if k = "name" ∨ k = "email" then (9 : ℚ)/10 else (7 : ℚ)/10,
      asked := false, answered := true, source := some "manual" }
  else zeroFieldState

/-- `candidate_service.CandidateService._initialize_conversation_state`
(lines 555-590). -/
def initializeConversationState (name email phone experience skills
    currentCompany education location : JsonValue) : ConvFields :=
  [("name", name), ("email", email), ("phone", phone), ("experience", experience),
   ("skills", skills), ("currentCompany", currentCompany),
   ("education", education), ("location", location)].map
    (fun kv => (kv.1, initFieldState kv.1 kv.2))

/-- The `parsed_data` dict handed to `_create_conversation_state`: per-key
values, the `confidence_scores` sub-dict, and the `skills` list. -/
structure ParsedData where
  values : List (String × JsonValue)
  confidenceScores : List (String × ℚ)
  skills : List String
  deriving Repr

/-- The parse-key → conversation-key mapping of `_create_conversation_state`. -/
def resumeFieldMapping : List (String × String) :=
  [("name", "name"), ("email", "email"), ("phone", "phone"),
   ("years_experience", "experience"), ("current_company", "currentCompany"),
   ("education", "education"), ("location", "location")]

/-- One mapped field of `_create_conversation_state`: a truthy parsed value
is stored with its confidence score, `answered = confidence > 0.5`, source
`resume`; otherwise the zero state. -/
def resumeFieldState (value : JsonValue) (conf : ℚ) : FieldState :=
  if value.truthy then
    { value := value, confidence := conf, asked := false,
      answered := decide ((1 : ℚ)/2 < conf), source := some "resume" }
  else zeroFieldState

/-- The skills entry of `_create_conversation_state`: the (possibly empty)
list is kept as value, with `answered = bool(skills) and confidence > 0.5`
and `source = "resume" if skills else None`. -/
def resumeSkillsState (skills : List String) (sc : ℚ) : FieldState :=
  { value := JsonValue.vList skills, confidence := sc, asked := false,
    answered := !skills.isEmpty && decide ((1 : ℚ)/2 < sc),
    source := if skills.isEmpty then none else some "resume" }

/-- `resume_service.ResumeService._create_conversation_state`
(lines 668-718). -/
def createConversationState (pd : ParsedData) : ConvFields :=
  (resumeFieldMapping.map (fun pk =>
    (pk.2, resumeFieldState ((lookupData pd.values pk.1).getD JsonValue.vNone)
      ((lookupScore pd.confidenceScores pk.1).getD 0))))
  ++ [("skills",
      resumeSkillsState pd.skills ((lookupScore pd.confidenceScores "skills").getD 0))]

/-! ## Resume parsing job gate and text extraction chain -/

/-- Terminal job status of a parse job. -/
inductive JobStatus where
  | queued | processing | completed | failed
  deriving DecidableEq, Repr

/-- The caller-visible outcome of `resume_service.parse_resume_content` as a
function of the extracted text: job status, job error, and whether the
candidate profile was written. -/
structure ParseJobOutcome where
  status : JobStatus
  error : Option String
  candidateUpdated : Bool
  deriving DecidableEq, Repr

/-- The sufficiency gate of
`resume_service.ResumeService.parse_resume_content` (lines 196-204):
`if not raw_text or len(raw_text.strip()) < 50` the job is marked failed with
a descriptive error and the candidate is left untouched; otherwise parsing
proceeds and the candidate is updated. -/
def parseResumeContentGate (rawText : String) : ParseJobOutcome :=
  if rawText.toList.isEmpty ∨ (pyStrip rawText).toList.length < 50 then
    { status := JobStatus.failed,
      error := some "Failed to extract text from resume",
      candidateUpdated := false }
  else
    { status := JobStatus.completed, error := none, candidateUpdated := true }

/-- The per-strategy sufficiency check of
`resume_parser.ResumeParser._extract_text` for unknown file types:
`if text and len(text.strip()) > 100`. -/
def sufficientText (t : String) : Bool :=
  !t.toList.isEmpty && decide (100 < (pyStrip t).toList.length)

/-- A strategy outcome: extracted text or a raised exception. -/
abbrev StrategyResult := Except String String

/-- One strategy step of the unknown-type loop: an exception is swallowed
(`except: continue`) and an insufficient text is skipped. -/
def strategyFails : StrategyResult → Bool
  | Except.ok t => !sufficientText t
  | Except.error _ => true

/-- The unknown-type fallback loop of `_extract_text` (lines 209-217):
return the first sufficient strategy result, else the empty string. -/
def tryStrategies : List StrategyResult → String
  | [] => ""
  | r :: rest =>
      match r with
      | Except.ok t => if sufficientText t then t else tryStrategies rest
      | Except.error _ => tryStrategies rest

/-- `resume_parser.ResumeParser._extract_text` on an input whose detected
type is unknown: try PDF, then DOCX, then OCR, in that order. The strategy
outcomes are parameters because the strategies themselves call external
libraries. -/
def extractTextUnknownType (pdfR docxR ocrR : StrategyResult) : String :=
  tryStrategies [pdfR, docxR, ocrR]

end Hireflow

namespace Hireflow

/-! ## Spec-side definition for the aggregate-confidence refinement -/

/-- The whole-profile confidence formula as the spec words it: the mean of
all non-zero per-field confidences, expressed as a percentage; a candidate
with no populated fields has aggregate confidence 0. (Spec-side definition,
to be compared with `calcCandidateConfidence`.) -/
def meanNonzeroConfidencePct (fields : ConvFields) : ℚ :=
  let nz := (fields.map (fun kv => kv.2.confidence)).filter (fun c => c ≠ 0)
  if nz.length = 0 then 0 else nz.sum / (nz.length : ℚ) * 100

/-! ## Association-list lemmas -/

theorem lookupField_setField (fs : ConvFields) (k : String)
    (g : FieldState → FieldState) :
    lookupField (setField fs k g) k = (lookupField fs k).map g := by
  induction fs with
  | nil => rfl
  | cons kv rest ih =>
      by_cases h : kv.1 = k
      · simp [setField, lookupField, h]
      · simpa [setField, lookupField, h] using ih

theorem lookupField_append (fs gs : ConvFields) (k : String) :
    lookupField (fs ++ gs) k =
      (match lookupField fs k with
       | some st => some st
       | none => lookupField gs k) := by
  induction fs with
  | nil => simp [lookupField]
  | cons kv rest ih =>
      by_cases h : kv.1 = k
      · simp [lookupField, h]
      · simpa [lookupField, h] using ih

theorem lookupField_setFieldState (fs : ConvFields) (k : String) (st : FieldState) :
    lookupField (setFieldState fs k st) k = some st := by
  unfold setFieldState
  by_cases h : (lookupField fs k).isSome
  · obtain ⟨st0, hst0⟩ := Option.isSome_iff_exists.mp h
    simp [h, lookupField_setField, hst0]
  · simp only [h, if_false, Bool.false_eq_true, lookupField_append]
    have hnone : lookupField fs k = none := Option.not_isSome_iff_eq_none.mp h
    simp [hnone, lookupField]

theorem updateFieldsFromReply_single (fields : ConvFields) (f : String)
    (extracted : ExtractedData) :
    updateFieldsFromReply fields [f] extracted =
      (if (lookupField fields f).isSome then
        setField fields f (applyReplyToField extracted f)
      else fields) := by
  simp [updateFieldsFromReply, List.foldl]

theorem updateConversationStateFromReply_fields (fields : ConvFields) (overall : ℚ)
    (askedFields : List String) (extracted : ExtractedData) :
    (updateConversationStateFromReply fields overall askedFields extracted).fields =
      updateFieldsFromReply fields askedFields extracted := by
  unfold updateConversationStateFromReply
  by_cases h : (updateFieldsFromReply fields askedFields extracted).isEmpty <;> simp [h]

/-! ## C10: the deterministic reply classifiers are pure in the reply text -/

/-- C10 (confirmed): the deterministic reply classification is a function of
the reply text alone. Two invocations with the same reply content produce
the same classification, review flag and suggested replies, whatever the
candidate context, conversation state or asked fields are. -/
theorem deterministicClassifier_noninterference (t : String)
    (c₁ c₂ : CandidateInfo) (s₁ s₂ : ConvFields) (af₁ af₂ : List String) :
    receiveReplyClassifyWithContext t c₁ s₁ = receiveReplyClassifyWithContext t c₂ s₂ ∧
    analyzeReplyDeterministic t c₁ af₁ = analyzeReplyDeterministic t c₂ af₂ :=
  ⟨rfl, rfl⟩

end Hireflow

namespace Hireflow

/-! ## C4: priority order of the deterministic reply classifier -/

/-- C4 counterexample: on the reply `"Yes, more info"` no decline phrase and
no question indicator matches, an explicit clarification-request phrase
(`"more info"`) does match, yet the classifier returns `interested` (the
affirmative check precedes the clarification check), not
`needs_clarification` as the claimed priority order requires. -/
theorem receiveReply_order_counterexample :
    hitAny (pyLower "Yes, more info") declinePhrases = false ∧
    hitAny (pyLower "Yes, more info") questionIndicators = false ∧
    hitAny (pyLower "Yes, more info") clarificationPhrases = true ∧
    (receiveReplyClassify "Yes, more info").classification = "interested" ∧
    (receiveReplyClassify "Yes, more info").classification ≠ "needs_clarification" := by
  refine ⟨by decide, by decide, by decide, by decide, by decide⟩

/-- C4 amended: the deterministic classifier of `receive_reply` checks, in
priority order, decline phrases → `not_interested` (no review); else
question indicators (literal `?` or the fixed keyword set) → `question` with
`requires_hr_review = true` and a suggested reply chosen by sub-topic
keyword (compensation / work-arrangement / generic); else affirmative words
→ `interested`; else clarification phrases → `needs_clarification`; else
`interested`. In particular `"Not interested, thanks"` yields
`not_interested` with `requires_hr_review = false`. -/
theorem receiveReply_priority_order (t : String) :
    (hitAny (pyLower t) declinePhrases = true →
      (receiveReplyClassify t).classification = "not_interested" ∧
      (receiveReplyClassify t).requiresHrReview = false) ∧
    (hitAny (pyLower t) declinePhrases = false →
     hitAny (pyLower t) questionIndicators = true →
      (receiveReplyClassify t).classification = "question" ∧
      (receiveReplyClassify t).requiresHrReview = true ∧
      (receiveReplyClassify t).aiSuggestedReply =
        some (if hitAny (pyLower t) salaryWords then
          "Great question! The compensation range is competitive. Would you like to discuss further?"
        else if hitAny (pyLower t) remoteWords then
          "This role offers flexible work arrangements. Happy to discuss details."
        else
          "Thanks for your question! I\x27d be happy to provide more details.")) ∧
    (hitAny (pyLower t) declinePhrases = false →
     hitAny (pyLower t) questionIndicators = false →
     hitAny (pyLower t) affirmativeWords = true →
      (receiveReplyClassify t).classification = "interested" ∧
      (receiveReplyClassify t).requiresHrReview = false) ∧
    (hitAny (pyLower t) declinePhrases = false →
     hitAny (pyLower t) questionIndicators = false →
     hitAny (pyLower t) affirmativeWords = false →
     hitAny (pyLower t) clarificationPhrases = true →
      (receiveReplyClassify t).classification = "needs_clarification" ∧
      (receiveReplyClassify t).requiresHrReview = false) ∧
    (hitAny (pyLower t) declinePhrases = false →
     hitAny (pyLower t) questionIndicators = false →
     hitAny (pyLower t) affirmativeWords = false →
     hitAny (pyLower t) clarificationPhrases = false →
      (receiveReplyClassify t).classification = "interested" ∧
      (receiveReplyClassify t).requiresHrReview = false) := by
  refine ⟨fun h1 => ?_, fun h1 h2 => ?_, fun h1 h2 h3 => ?_,
          fun h1 h2 h3 h4 => ?_, fun h1 h2 h3 h4 => ?_⟩ <;>
    simp [receiveReplyClassify, h1, *]

/-- C4 witness: the amended priority rules applied at concrete replies,
including the spec scenario `"Not interested, thanks"`. -/
theorem receiveReply_priority_order_witness :
    ((receiveReplyClassify "Not interested, thanks").classification = "not_interested" ∧
     (receiveReplyClassify "Not interested, thanks").requiresHrReview = false) ∧
    ((receiveReplyClassify "Is this role remote").classification = "question" ∧
     (receiveReplyClassify "Is this role remote").requiresHrReview = true) ∧
    ((receiveReplyClassify "Yes, more info").classification = "interested" ∧
     (receiveReplyClassify "Yes, more info").requiresHrReview = false) :=
  ⟨(receiveReply_priority_order "Not interested, thanks").1 (by decide),
   ⟨((receiveReply_priority_order "Is this role remote").2.1 (by decide) (by decide)).1,
    ((receiveReply_priority_order "Is this role remote").2.1 (by decide) (by decide)).2.1⟩,
   (receiveReply_priority_order "Yes, more info").2.2.1 (by decide) (by decide) (by decide)⟩

end Hireflow

namespace Hireflow

/-! ## C1: merge precedence -/

/-- The spec scenario state: `location` holds `"Austin"` at confidence 0.9
from the resume, already asked and answered. -/
def austinState : ConvFields :=
  [("location",
    { value := JsonValue.vStr "Austin", confidence := (9 : ℚ)/10,
      asked := true, answered := true, source := some "resume" })]

/-- C1 counterexample: merging the lower-reliability reply evidence
`location = "Remote"` into the `(Austin, 0.9, resume)` state does not retain
`"Austin"`: the reply-sourced merge overwrites the value unconditionally,
ending with `value = "Remote"`. -/
theorem merge_scenario_counterexample :
    (updateConversationStateFromReply austinState 90 ["location"]
        [("location", JsonValue.vStr "Remote")]).fields =
      [("location",
        { value := JsonValue.vStr "Remote", confidence := (9 : ℚ)/10,
          asked := true, answered := true, source := some "reply" })] ∧
    lookupField (updateConversationStateFromReply austinState 90 ["location"]
        [("location", JsonValue.vStr "Remote")]).fields "location" ≠
      some { value := JsonValue.vStr "Austin", confidence := (9 : ℚ)/10,
             asked := true, answered := true, source := some "resume" } := by
  have hfields : (updateConversationStateFromReply austinState 90 ["location"]
      [("location", JsonValue.vStr "Remote")]).fields =
      [("location",
        { value := JsonValue.vStr "Remote", confidence := (9 : ℚ)/10,
          asked := true, answered := true, source := some "reply" })] := rfl
  refine ⟨hfields, ?_⟩
  intro h
  rw [hfields] at h
  simp +decide [lookupField] at h

/-- C1 amended: no confidence comparison exists. A reply-sourced merge
overwrites an asked field's value with the extracted value whenever the
reply yielded that field, with fixed confidence 0.9 and source `reply`,
regardless of the current confidence; and
`candidate_service.update_conversation_state` replaces the stored FieldState
wholesale with the supplied one. The spec scenario therefore ends with
`value = "Remote"`, `confidence = 0.9`. -/
theorem merge_overwrites_unconditionally (fields : ConvFields) (f : String)
    (st : FieldState) (v : JsonValue) (extracted : ExtractedData) (overall : ℚ)
    (h1 : lookupField fields f = some st)
    (h2 : lookupData extracted (mapToConversationKey f) = some v) :
    lookupField (updateConversationStateFromReply fields overall [f] extracted).fields f =
      some { value := v, confidence := (9 : ℚ)/10, asked := st.asked,
             answered := true, source := some "reply" } ∧
    ∀ (k : String) (newSt : FieldState),
      lookupField (updateConversationState fields k newSt).fields k = some newSt := by
  constructor
  · rw [updateConversationStateFromReply_fields, updateFieldsFromReply_single, h1]
    simp only [Option.isSome_some, if_true, lookupField_setField, h1, Option.map_some]
    unfold applyReplyToField
    rw [h2]
    rfl
  · intro k newSt
    unfold updateConversationState
    exact lookupField_setFieldState fields k newSt

/-- C1 witness: the amended overwrite rule applied at the spec scenario. -/
theorem merge_overwrites_unconditionally_witness :
    lookupField (updateConversationStateFromReply austinState 90 ["location"]
        [("location", JsonValue.vStr "Remote")]).fields "location" =
      some { value := JsonValue.vStr "Remote", confidence := (9 : ℚ)/10,
             asked := true, answered := true, source := some "reply" } :=
  (merge_overwrites_unconditionally austinState "location"
    { value := JsonValue.vStr "Austin", confidence := (9 : ℚ)/10,
      asked := true, answered := true, source := some "resume" }
    (JsonValue.vStr "Remote") [("location", JsonValue.vStr "Remote")] 90 rfl rfl).1

end Hireflow

namespace Hireflow

/-! ## C2: pending-field selection -/

/-- A schema-valid state: answered from the resume but never asked. -/
def answeredUnaskedState : FieldState :=
  { value := JsonValue.vStr "Austin", confidence := 1,
    asked := false, answered := true, source := some "resume" }

/-- A schema-valid state: answered with a null value, never asked. -/
def answeredNullState : FieldState :=
  { value := JsonValue.vNone, confidence := 1,
    asked := false, answered := true, source := some "reply" }

/-- The untouched zero state of a field nobody asked about yet. -/
def untouchedState : FieldState :=
  { value := JsonValue.vNone, confidence := 0,
    asked := false, answered := false, source := none }

/-- C2 counterexample: both pending-field selectors can return a field whose
`answered` flag is true. `candidate_service.get_pending_fields` returns an
answered-but-never-asked field; `messaging_service._get_pending_fields`
returns an answered field whose value is null and that was never asked. Both
states pass schema validation. -/
theorem pendingFields_counterexample :
    validFieldState answeredUnaskedState = true ∧
    answeredUnaskedState.answered = true ∧
    getPendingFieldsCs [("location", answeredUnaskedState)] = ["location"] ∧
    answeredNullState.answered = true ∧
    getPendingFieldsMsg [("portfolio_url", answeredNullState)] = ["portfolio_url"] := by
  refine ⟨by decide, by decide, by decide, by decide, by decide⟩

/-- C2 amended: for a profile whose field states all pass schema validation,
`candidate_service.get_pending_fields` returns exactly the fields with
`not asked or not answered`, and `messaging_service._get_pending_fields`
returns exactly the fields with `not answered or (value is null and not
asked)` — so each can return a field whose `answered` is true (when it was
never asked, respectively when its value is null and it was never asked). -/
theorem pendingFields_characterization (fields : ConvFields) (f : String)
    (hv : ∀ kv ∈ fields, validFieldState kv.2 = true) :
    (f ∈ getPendingFieldsCs fields ↔
      ∃ st, (f, st) ∈ fields ∧ (st.asked = false ∨ st.answered = false)) ∧
    (f ∈ getPendingFieldsMsg fields ↔
      ∃ st, (f, st) ∈ fields ∧
        (st.answered = false ∨ (st.value = JsonValue.vNone ∧ st.asked = false))) := by
  constructor
  · unfold getPendingFieldsCs
    rw [if_pos (List.all_eq_true.mpr hv)]
    simp only [List.mem_map, List.mem_filter, Bool.or_eq_true, Bool.not_eq_true']
    constructor
    · rintro ⟨⟨k, st⟩, ⟨hmem, hp⟩, rfl⟩
      exact ⟨st, hmem, hp⟩
    · rintro ⟨st, hmem, hp⟩
      exact ⟨(f, st), ⟨hmem, hp⟩, rfl⟩
  · unfold getPendingFieldsMsg
    simp only [List.mem_map, List.mem_filter, Bool.or_eq_true, Bool.not_eq_true',
               Bool.and_eq_true, beq_iff_eq]
    constructor
    · rintro ⟨⟨k, st⟩, ⟨hmem, hp⟩, rfl⟩
      exact ⟨st, hmem, hp⟩
    · rintro ⟨st, hmem, hp⟩
      exact ⟨(f, st), ⟨hmem, hp⟩, rfl⟩

/-- C2 witness: the characterization applied at a concrete two-field
profile: the untouched field and the answered-but-unasked field are both
pending for `get_pending_fields`. -/
theorem pendingFields_characterization_witness :
    "notice_period" ∈ getPendingFieldsCs
      [("location", answeredUnaskedState), ("notice_period", untouchedState)] ∧
    "location" ∈ getPendingFieldsCs
      [("location", answeredUnaskedState), ("notice_period", untouchedState)] :=
  ⟨(pendingFields_characterization _ "notice_period" (by decide)).1.mpr
      ⟨untouchedState, by simp, Or.inr rfl⟩,
   (pendingFields_characterization _ "location" (by decide)).1.mpr
      ⟨answeredUnaskedState, by simp, Or.inl rfl⟩⟩

end Hireflow

namespace Hireflow

/-! ## C3: the hard extraction-failure gate -/

/-- A 60-character extracted text with no surrounding whitespace. -/
def sixtyCharText : String := String.mk (List.replicate 60 'a')

set_option maxRecDepth 8000 in
/-- C3 counterexample: a document whose extraction yields 60 characters —
fewer than 100 — is not treated as a failure: `parse_resume_content` only
fails the job below 50 stripped characters, so the job completes and the
candidate profile is written. -/
theorem extractionGate_counterexample :
    (pyStrip sixtyCharText).toList.length = 60 ∧
    (pyStrip sixtyCharText).toList.length < 100 ∧
    (parseResumeContentGate sixtyCharText).status = JobStatus.completed ∧
    (parseResumeContentGate sixtyCharText).candidateUpdated = true := by
  refine ⟨by decide, by decide, by decide, by decide⟩

/-- C3 amended: the hard-failure threshold of `parse_resume_content` is 50
stripped characters, not 100. Below it the job is marked failed with the
descriptive error `"Failed to extract text from resume"` and the candidate
profile is left untouched; at 50 stripped characters or more the job
completes and the profile is updated. -/
theorem extractionGate_threshold (rawText : String) :
    ((pyStrip rawText).toList.length < 50 →
      (parseResumeContentGate rawText).status = JobStatus.failed ∧
      (parseResumeContentGate rawText).error =
        some "Failed to extract text from resume" ∧
      (parseResumeContentGate rawText).candidateUpdated = false) ∧
    (50 ≤ (pyStrip rawText).toList.length →
      (parseResumeContentGate rawText).status = JobStatus.completed ∧
      (parseResumeContentGate rawText).candidateUpdated = true) := by
  constructor
  · intro h
    unfold parseResumeContentGate
    rw [if_pos (Or.inr h)]
    exact ⟨rfl, rfl, rfl⟩
  · intro h
    have hne : ¬rawText.toList.isEmpty = true := by
      intro hemp
      have : rawText.toList = [] := by simpa [List.isEmpty_iff] using hemp
      rw [show rawText = String.mk rawText.toList from rfl, this] at h
      simp [pyStrip] at h
    unfold parseResumeContentGate
    rw [if_neg (by push_neg; exact ⟨by simpa using hne, by omega⟩)]
    exact ⟨rfl, rfl⟩

set_option maxRecDepth 8000 in
/-- C3 witness: the amended gate applied at a 10-character and at a
60-character extracted text. -/
theorem extractionGate_threshold_witness :
    ((parseResumeContentGate "abcdefghij").status = JobStatus.failed ∧
     (parseResumeContentGate "abcdefghij").error =
       some "Failed to extract text from resume" ∧
     (parseResumeContentGate "abcdefghij").candidateUpdated = false) ∧
    ((parseResumeContentGate sixtyCharText).status = JobStatus.completed ∧
     (parseResumeContentGate sixtyCharText).candidateUpdated = true) :=
  ⟨(extractionGate_threshold "abcdefghij").1 (by decide),
   (extractionGate_threshold sixtyCharText).2 (by decide)⟩

end Hireflow

namespace Hireflow

/-! ## C5: the answered flag versus the 0.5 confidence threshold -/

theorem initFieldState_answered (k : String) (v : JsonValue) :
    (initFieldState k v).answered =
      decide ((1 : ℚ)/2 < (initFieldState k v).confidence) := by
  unfold initFieldState zeroFieldState
  by_cases hv : v ≠ JsonValue.vNone
  · by_cases hk : k = "name" ∨ k = "email" <;> simp [hv, hk] <;> norm_num
  · simp [hv]

theorem resumeFieldState_answered (v : JsonValue) (c : ℚ) :
    (resumeFieldState v c).answered =
      decide ((1 : ℚ)/2 < (resumeFieldState v c).confidence) := by
  unfold resumeFieldState zeroFieldState
  by_cases hv : v.truthy
  · simp [hv]
  · simp [hv]

/-- The asked-and-answered pre-state of the C5 counterexample. -/
def askedAnsweredState : FieldState :=
  { value := JsonValue.vStr "Austin", confidence := 1,
    asked := true, answered := true, source := some "resume" }

/-- Its one-field profile. -/
def askedAnsweredFields : ConvFields := [("location", askedAnsweredState)]

/-- C5 counterexample: a reply-sourced merge on an asked field that the reply
did not answer sets `answered = false` but keeps the old confidence (here 1),
so afterwards `answered ≠ (confidence > 0.5)`. -/
theorem answeredFlag_counterexample :
    lookupField (updateConversationStateFromReply askedAnsweredFields 100
        ["location"] []).fields "location" =
      some { value := JsonValue.vStr "Austin", confidence := 1,
             asked := true, answered := false, source := some "resume" } ∧
    ((1 : ℚ)/2 < (1 : ℚ)) ∧
    (false ≠ decide ((1 : ℚ)/2 < (1 : ℚ))) := by
  refine ⟨rfl, by norm_num, by norm_num⟩

/-- C5 amended: `answered = (confidence > 0.5)` holds after initial creation
from manual data and, except for the skills entry, after resume-sourced
creation (the skills entry additionally requires a non-empty skills list for
`answered`; in every case `answered` implies `confidence > 0.5`). A
reply-sourced merge keeps the equivalence for a field the reply answered
(`answered = true`, `confidence = 0.9`), but a field asked and not answered
gets `answered = false` while keeping its previous confidence, which may
exceed 0.5. -/
theorem answeredFlag_invariant (n e p x sk c ed l : JsonValue) (pd : ParsedData)
    (fields : ConvFields) (f : String) (st : FieldState) (v : JsonValue)
    (extracted : ExtractedData) :
    (∀ kv ∈ initializeConversationState n e p x sk c ed l,
      kv.2.answered = decide ((1 : ℚ)/2 < kv.2.confidence)) ∧
    (∀ kv ∈ createConversationState pd, kv.1 ≠ "skills" →
      kv.2.answered = decide ((1 : ℚ)/2 < kv.2.confidence)) ∧
    (∀ kv ∈ createConversationState pd, kv.2.answered = true →
      (1 : ℚ)/2 < kv.2.confidence) ∧
    (lookupField fields f = some st →
     lookupData extracted (mapToConversationKey f) = some v →
      lookupField (updateFieldsFromReply fields [f] extracted) f =
        some { value := v, confidence := (9 : ℚ)/10, asked := st.asked,
               answered := true, source := some "reply" } ∧
      (1 : ℚ)/2 < (9 : ℚ)/10) ∧
    (lookupField fields f = some st →
     lookupData extracted (mapToConversationKey f) = none →
      lookupField (updateFieldsFromReply fields [f] extracted) f =
        some { value := st.value, confidence := st.confidence, asked := true,
               answered := false, source := st.source }) := by
  refine ⟨?_, ?_, ?_, ?_, ?_⟩
  · intro kv hkv
    simp only [initializeConversationState, List.mem_map] at hkv
    obtain ⟨a, _, rfl⟩ := hkv
    exact initFieldState_answered a.1 a.2
  · intro kv hkv _hne
    rcases List.mem_append.mp hkv with hmem | hmem
    · simp only [List.mem_map] at hmem
      obtain ⟨pk, _, rfl⟩ := hmem
      exact resumeFieldState_answered _ _
    · rcases List.mem_singleton.mp hmem with rfl
      exact absurd rfl _hne
  · intro kv hkv ha
    rcases List.mem_append.mp hkv with hmem | hmem
    · simp only [List.mem_map] at hmem
      obtain ⟨pk, _, rfl⟩ := hmem
      have := resumeFieldState_answered ((lookupData pd.values pk.1).getD JsonValue.vNone)
        ((lookupScore pd.confidenceScores pk.1).getD 0)
      rw [ha] at this
      exact of_decide_eq_true this.symm
    · rcases List.mem_singleton.mp hmem with rfl
      have hand := ha
      simp only [resumeSkillsState, Bool.and_eq_true, decide_eq_true_eq] at hand
      exact hand.2
  · intro h1 h2
    rw [updateFieldsFromReply_single, h1]
    simp only [Option.isSome_some, if_true, lookupField_setField, h1, Option.map_some]
    refine ⟨?_, by norm_num⟩
    unfold applyReplyToField
    rw [h2]
    rfl
  · intro h1 h2
    rw [updateFieldsFromReply_single, h1]
    simp only [Option.isSome_some, if_true, lookupField_setField, h1, Option.map_some]
    unfold applyReplyToField
    rw [h2]
    rfl

/-- C5 witness: the invariant applied at concrete inputs — a manual
initialization entry, and a reply merge that answers the asked field. -/
theorem answeredFlag_invariant_witness :
    zeroFieldState.answered = decide ((1 : ℚ)/2 < zeroFieldState.confidence) ∧
    lookupField (updateFieldsFromReply askedAnsweredFields ["location"]
        [("location", JsonValue.vStr "Remote")]) "location" =
      some { value := JsonValue.vStr "Remote", confidence := (9 : ℚ)/10,
             asked := true, answered := true, source := some "reply" } :=
  ⟨(answeredFlag_invariant JsonValue.vNone JsonValue.vNone JsonValue.vNone
      JsonValue.vNone JsonValue.vNone JsonValue.vNone JsonValue.vNone JsonValue.vNone
      ⟨[], [], []⟩ [] "" zeroFieldState JsonValue.vNone []).1
      ("name", zeroFieldState)
      (by simp [initializeConversationState, initFieldState]),
   ((answeredFlag_invariant JsonValue.vNone JsonValue.vNone JsonValue.vNone
      JsonValue.vNone JsonValue.vNone JsonValue.vNone JsonValue.vNone JsonValue.vNone
      ⟨[], [], []⟩ askedAnsweredFields "location" askedAnsweredState
      (JsonValue.vStr "Remote") [("location", JsonValue.vStr "Remote")]).2.2.2.1
      rfl rfl).1⟩

end Hireflow

namespace Hireflow

/-! ## C6: aggregate (whole-profile) confidence -/

/-- The C6 pre-state: one populated field at confidence 1. -/
def c6State : ConvFields :=
  [("location",
    { value := JsonValue.vStr "Austin", confidence := 1,
      asked := true, answered := true, source := some "resume" })]

/-- C6 counterexample: after a reply-sourced update the stored aggregate is
the filled-field ratio (here 100), while the mean of non-zero per-field
confidences is 90 — the reply path does not use the mean formula. -/
theorem aggregateConfidence_counterexample :
    (updateConversationStateFromReply c6State 100 ["location"]
        [("location", JsonValue.vStr "Remote")]).overallConfidence = 100 ∧
    meanNonzeroConfidencePct (updateConversationStateFromReply c6State 100
        ["location"] [("location", JsonValue.vStr "Remote")]).fields = 90 ∧
    (100 : ℚ) ≠ 90 := by
  have hf : (updateConversationStateFromReply c6State 100 ["location"]
      [("location", JsonValue.vStr "Remote")]).fields =
      [("location",
        { value := JsonValue.vStr "Remote", confidence := (9 : ℚ)/10,
          asked := true, answered := true, source := some "reply" })] := rfl
  refine ⟨?_, ?_, by norm_num⟩
  · simp +decide [updateConversationStateFromReply, updateFieldsFromReply, setField,
      lookupField, applyReplyToField, lookupData, mapToConversationKey,
      JsonValue.truthy, c6State]
  · rw [hf]
    simp only [meanNonzeroConfidencePct, List.map_cons, List.map_nil]
    norm_num

/-- The Python loop of `_calculate_candidate_confidence` accumulates the sum
and count of the strictly positive confidences. -/
theorem confidenceFoldl_eq (fields : ConvFields) (s : ℚ) (n : ℕ) :
    fields.foldl
      (fun (p : ℚ × ℕ) kv =>
        if 0 < kv.2.confidence then (p.1 + kv.2.confidence, p.2 + 1) else p)
      (s, n) =
    (s + ((fields.map (fun kv => kv.2.confidence)).filter
        (fun c => decide (0 < c))).sum,
     n + ((fields.map (fun kv => kv.2.confidence)).filter
        (fun c => decide (0 < c))).length) := by
  induction fields generalizing s n with
  | nil => simp
  | cons kv rest ih =>
      by_cases h : 0 < kv.2.confidence
      · rw [List.foldl_cons, if_pos h, ih]
        simp only [List.map_cons, List.filter_cons]
        rw [if_pos (by simpa using h)]
        simp only [List.sum_cons, List.length_cons, Prod.mk.injEq]
        exact ⟨by ring, by omega⟩
      · rw [List.foldl_cons, if_neg h, ih]
        simp only [List.map_cons, List.filter_cons]
        rw [if_neg (by simpa using h)]

/-- C6 amended: the `candidate_service` recomputation
(`_calculate_candidate_confidence`) does equal the spec formula — the mean
of the non-zero per-field confidences as a percentage, 0 with no populated
field — for any state with non-negative confidences; but the reply-sourced
update stores the percentage of fields with a truthy value instead (the
aggregate is left unchanged when the fields dict is empty). -/
theorem aggregateConfidence_formulas (fields : ConvFields) (overall : ℚ)
    (asked : List String) (extracted : ExtractedData)
    (h : ∀ kv ∈ fields, 0 ≤ kv.2.confidence) :
    calcCandidateConfidence fields = meanNonzeroConfidencePct fields ∧
    (updateConversationStateFromReply fields overall asked extracted).overallConfidence =
      (if (updateFieldsFromReply fields asked extracted).isEmpty then overall
       else (((updateFieldsFromReply fields asked extracted).filter
            (fun kv => kv.2.value.truthy)).length : ℚ) /
          ((updateFieldsFromReply fields asked extracted).length : ℚ) * 100) := by
  constructor
  · have hfe : (fields.map (fun kv => kv.2.confidence)).filter
        (fun c => decide (0 < c)) =
        (fields.map (fun kv => kv.2.confidence)).filter (fun c => c ≠ 0) := by
      apply List.filter_congr
      intro c hc
      obtain ⟨kv, hkv, rfl⟩ := List.mem_map.mp hc
      have hnn := h kv hkv
      simp only [decide_eq_decide]
      constructor
      · intro hlt
        exact ne_of_gt hlt
      · intro hne
        exact lt_of_le_of_ne hnn (Ne.symm hne)
    unfold calcCandidateConfidence meanNonzeroConfidencePct
    rw [confidenceFoldl_eq fields 0 0, hfe]
    simp only [zero_add]
    by_cases hz : ((fields.map (fun kv => kv.2.confidence)).filter
        (fun c => c ≠ 0)).length = 0
    · rw [if_neg (by omega), if_pos hz]
    · rw [if_pos (by omega), if_neg hz]
  · unfold updateConversationStateFromReply
    by_cases he : (updateFieldsFromReply fields asked extracted).isEmpty
    · simp [he]
    · have hne : updateFieldsFromReply fields asked extracted ≠ [] := by
        simpa [List.isEmpty_iff] using he
      have hp : 0 < (updateFieldsFromReply fields asked extracted).length :=
        List.length_pos.mpr hne
      simp [he, hp]

/-- C6 witness: the two formulas evaluated at a concrete two-field profile
with one populated field. -/
theorem aggregateConfidence_formulas_witness :
    calcCandidateConfidence [("location", answeredUnaskedState),
        ("notice_period", untouchedState)] =
      meanNonzeroConfidencePct [("location", answeredUnaskedState),
        ("notice_period", untouchedState)] ∧
    (updateConversationStateFromReply [("location", answeredUnaskedState),
        ("notice_period", untouchedState)] 0 [] []).overallConfidence =
      (((([("location", answeredUnaskedState), ("notice_period", untouchedState)] :
            ConvFields).filter (fun kv => kv.2.value.truthy)).length : ℚ) / 2 * 100) :=
  ⟨(aggregateConfidence_formulas [("location", answeredUnaskedState),
      ("notice_period", untouchedState)] 0 [] [] (by decide)).1,
   (aggregateConfidence_formulas [("location", answeredUnaskedState),
      ("notice_period", untouchedState)] 0 [] [] (by decide)).2⟩

end Hireflow

namespace Hireflow

/-! ## C7: the unknown-type extraction fallback chain -/

/-- C7 (confirmed): for an input of unknown detected type, `_extract_text`
attempts PDF, then DOCX, then OCR, in that order, returning the first
strategy result exceeding the 100-character sufficiency threshold and the
empty string when every strategy raises or is insufficient — it is total in
the strategy outcomes, so an exception never reaches the caller. -/
theorem extractTextUnknown_chain (pdfR docxR ocrR : StrategyResult) :
    (∀ t, pdfR = Except.ok t → sufficientText t = true →
      extractTextUnknownType pdfR docxR ocrR = t) ∧
    (strategyFails pdfR = true → ∀ t, docxR = Except.ok t → sufficientText t = true →
      extractTextUnknownType pdfR docxR ocrR = t) ∧
    (strategyFails pdfR = true → strategyFails docxR = true →
      ∀ t, ocrR = Except.ok t → sufficientText t = true →
      extractTextUnknownType pdfR docxR ocrR = t) ∧
    (strategyFails pdfR = true → strategyFails docxR = true →
      strategyFails ocrR = true →
      extractTextUnknownType pdfR docxR ocrR = "") := by
  have hstep : ∀ (r : StrategyResult) (rest : List StrategyResult),
      strategyFails r = true → tryStrategies (r :: rest) = tryStrategies rest := by
    intro r rest hr
    cases r with
    | ok t =>
        have : sufficientText t = false := by
          simpa [strategyFails] using hr
        simp [tryStrategies, this]
    | error e => simp [tryStrategies]
  have hok : ∀ (t : String) (rest : List StrategyResult), sufficientText t = true →
      tryStrategies (Except.ok t :: rest) = t := by
    intro t rest ht
    simp [tryStrategies, ht]
  refine ⟨?_, ?_, ?_, ?_⟩
  · rintro t rfl ht
    exact hok t _ ht
  · rintro h1 t rfl ht
    unfold extractTextUnknownType
    rw [hstep _ _ h1, hok t _ ht]
  · rintro h1 h2 t rfl ht
    unfold extractTextUnknownType
    rw [hstep _ _ h1, hstep _ _ h2, hok t _ ht]
  · intro h1 h2 h3
    unfold extractTextUnknownType
    rw [hstep _ _ h1, hstep _ _ h2, hstep _ _ h3]
    rfl

/-- A 150-character OCR result. -/
def longOcrText : String := String.mk (List.replicate 150 'x')

set_option maxRecDepth 8000 in
/-- C7 witness: the chain applied where PDF extraction raises, DOCX yields
an insufficient 2-character text, and OCR yields 150 sufficient characters:
the OCR text is returned. A fourth application: all strategies fail and the
empty string is returned. -/
theorem extractTextUnknown_chain_witness :
    extractTextUnknownType (Except.error "pdf boom") (Except.ok "hi")
      (Except.ok longOcrText) = longOcrText ∧
    extractTextUnknownType (Except.error "pdf boom") (Except.ok "hi")
      (Except.error "ocr boom") = "" :=
  ⟨(extractTextUnknown_chain (Except.error "pdf boom") (Except.ok "hi")
      (Except.ok longOcrText)).2.2.1 (by decide) (by decide) longOcrText rfl (by decide),
   (extractTextUnknown_chain (Except.error "pdf boom") (Except.ok "hi")
      (Except.error "ocr boom")).2.2.2 (by decide) (by decide) (by decide)⟩

end Hireflow

namespace Hireflow

/-! ## C8: reachable FieldState invariants -/

/-- A schema-valid state with `answered = true` and a null value. -/
def nullAnsweredState : FieldState :=
  { value := JsonValue.vNone, confidence := 1,
    asked := false, answered := true, source := some "manual" }

/-- A schema-valid state with `source = None` and non-zero confidence. -/
def sourcelessState : FieldState :=
  { value := JsonValue.vStr "x", confidence := 1,
    asked := false, answered := false, source := none }

/-- C8 counterexample: schema validation only constrains the confidence
range, so a state with `answered = true` and a null value — and one with
`source = None` but non-zero confidence — both validate and are stored
verbatim by `update_conversation_state`, violating the claimed invariants. -/
theorem fieldStateInvariants_counterexample :
    validFieldState nullAnsweredState = true ∧
    lookupField (updateConversationState [] "location" nullAnsweredState).fields
      "location" = some nullAnsweredState ∧
    nullAnsweredState.answered = true ∧
    nullAnsweredState.value = JsonValue.vNone ∧
    validFieldState sourcelessState = true ∧
    lookupField (updateConversationState [] "skills" sourcelessState).fields
      "skills" = some sourcelessState ∧
    sourcelessState.source = none ∧
    sourcelessState.confidence ≠ 0 := by
  refine ⟨by decide, by decide, by decide, by decide, by decide, by decide,
    by decide, by decide⟩

/-- All confidences of a profile lie in `[0, 1]`. -/
def confInRange (fields : ConvFields) : Prop :=
  ∀ kv ∈ fields, 0 ≤ kv.2.confidence ∧ kv.2.confidence ≤ 1

theorem lookupScore_getD_range (l : List (String × ℚ)) (k : String)
    (h : ∀ p ∈ l, 0 ≤ p.2 ∧ p.2 ≤ 1) :
    0 ≤ (lookupScore l k).getD 0 ∧ (lookupScore l k).getD 0 ≤ 1 := by
  induction l with
  | nil =>
      simp only [lookupScore, Option.getD_none]
      exact ⟨le_refl 0, by norm_num⟩
  | cons p rest ih =>
      by_cases he : p.1 = k
      · simpa [lookupScore, he] using h p (List.mem_cons_self p rest)
      · have hrest := ih (fun q hq => h q (List.mem_cons_of_mem p hq))
        simpa [lookupScore, he] using hrest

theorem confInRange_setField (fields : ConvFields) (k : String)
    (g : FieldState → FieldState) (h : confInRange fields)
    (hg : ∀ st : FieldState, 0 ≤ st.confidence ∧ st.confidence ≤ 1 →
      0 ≤ (g st).confidence ∧ (g st).confidence ≤ 1) :
    confInRange (setField fields k g) := by
  intro kv hkv
  obtain ⟨kv0, hkv0, rfl⟩ := List.mem_map.mp hkv
  by_cases he : kv0.1 = k
  · simpa [he] using hg kv0.2 (h kv0 hkv0)
  · simpa [he] using h kv0 hkv0

theorem applyReplyToField_range (extracted : ExtractedData) (f : String)
    (st : FieldState) (hst : 0 ≤ st.confidence ∧ st.confidence ≤ 1) :
    0 ≤ (applyReplyToField extracted f st).confidence ∧
      (applyReplyToField extracted f st).confidence ≤ 1 := by
  unfold applyReplyToField
  cases lookupData extracted (mapToConversationKey f) with
  | some v => exact ⟨by norm_num, by norm_num⟩
  | none => exact hst

theorem confInRange_updateFieldsFromReply (asked : List String) :
    ∀ (fields : ConvFields), confInRange fields →
    ∀ (extracted : ExtractedData),
      confInRange (updateFieldsFromReply fields asked extracted) := by
  induction asked with
  | nil =>
      intro fields h extracted
      simpa [updateFieldsFromReply] using h
  | cons a rest ih =>
      intro fields h extracted
      have hstep : updateFieldsFromReply fields (a :: rest) extracted =
          updateFieldsFromReply
            (if (lookupField fields a).isSome then
              setField fields a (applyReplyToField extracted a)
            else fields) rest extracted := by
        simp [updateFieldsFromReply, List.foldl_cons]
      rw [hstep]
      by_cases hs : (lookupField fields a).isSome
      · rw [if_pos hs]
        exact ih _ (confInRange_setField fields a _ h
          (fun st hst => applyReplyToField_range extracted a st hst)) extracted
      · rw [if_neg hs]
        exact ih fields h extracted

/-- C8 amended: the only invariant the system maintains on reachable field
states is the confidence range `[0, 1]`: it holds for states built by the
manual initializer, for resume-sourced creation when the parsed confidence
scores lie in `[0, 1]`, and it is preserved by wholesale updates with
schema-validated input and by reply-sourced merges. `answered = true` with a
null value, and `source = None` with non-zero confidence, are representable
and accepted. -/
theorem fieldStateInvariants_range (n e p x sk c ed l : JsonValue)
    (pd : ParsedData) (fields : ConvFields) (k : String) (st : FieldState)
    (asked : List String) (extracted : ExtractedData) :
    confInRange (initializeConversationState n e p x sk c ed l) ∧
    ((∀ q ∈ pd.confidenceScores, 0 ≤ q.2 ∧ q.2 ≤ 1) →
      confInRange (createConversationState pd)) ∧
    (confInRange fields → validFieldState st = true →
      confInRange (updateConversationState fields k st).fields) ∧
    (confInRange fields →
      confInRange (updateConversationStateFromReply fields 0 asked
        extracted).fields) := by
  refine ⟨?_, ?_, ?_, ?_⟩
  · intro kv hkv
    obtain ⟨a, _, rfl⟩ := List.mem_map.mp hkv
    unfold initFieldState zeroFieldState
    by_cases hv : a.2 ≠ JsonValue.vNone
    · by_cases hk : a.1 = "name" ∨ a.1 = "email" <;>
        simp [hv, hk] <;> constructor <;> norm_num
    · simp [hv]
  · intro hs kv hkv
    rcases List.mem_append.mp hkv with hmem | hmem
    · obtain ⟨pk, _, rfl⟩ := List.mem_map.mp hmem
      have hr := lookupScore_getD_range pd.confidenceScores pk.1 hs
      unfold resumeFieldState zeroFieldState
      by_cases hv : ((lookupData pd.values pk.1).getD JsonValue.vNone).truthy
      · simpa [hv] using hr
      · simp [hv]
    · rcases List.mem_singleton.mp hmem with rfl
      simpa [resumeSkillsState] using
        lookupScore_getD_range pd.confidenceScores "skills" hs
  · intro h hv kv hkv
    have hrange : 0 ≤ st.confidence ∧ st.confidence ≤ 1 := by
      unfold validFieldState at hv
      simpa using hv
    unfold updateConversationState setFieldState at hkv
    simp only at hkv
    by_cases hl : (lookupField fields k).isSome
    · rw [if_pos hl] at hkv
      exact confInRange_setField fields k _ h (fun _ _ => hrange) kv hkv
    · rw [if_neg hl] at hkv
      rcases List.mem_append.mp hkv with hmem | hmem
      · exact h kv hmem
      · rcases List.mem_singleton.mp hmem with rfl
        exact hrange
  · intro h
    rw [updateConversationStateFromReply_fields]
    exact confInRange_updateFieldsFromReply asked fields h extracted

/-- C8 witness: the range invariant applied at concrete inputs — a manual
initialization, a wholesale update with a validated state, and a
reply-sourced merge. -/
theorem fieldStateInvariants_range_witness :
    confInRange (initializeConversationState (JsonValue.vStr "Jo")
      JsonValue.vNone JsonValue.vNone JsonValue.vNone JsonValue.vNone
      JsonValue.vNone JsonValue.vNone JsonValue.vNone) ∧
    confInRange (updateConversationState [] "location" nullAnsweredState).fields ∧
    confInRange (updateConversationStateFromReply
      [("location", nullAnsweredState)] 0 ["location"]
      [("location", JsonValue.vStr "Remote")]).fields :=
  ⟨(fieldStateInvariants_range (JsonValue.vStr "Jo") JsonValue.vNone
      JsonValue.vNone JsonValue.vNone JsonValue.vNone JsonValue.vNone
      JsonValue.vNone JsonValue.vNone ⟨[], [], []⟩ [] "location"
      nullAnsweredState [] []).1,
   (fieldStateInvariants_range JsonValue.vNone JsonValue.vNone JsonValue.vNone
      JsonValue.vNone JsonValue.vNone JsonValue.vNone JsonValue.vNone
      JsonValue.vNone ⟨[], [], []⟩ [] "location" nullAnsweredState [] []).2.2.1
      (by intro kv hkv; cases hkv) (by decide),
   (fieldStateInvariants_range JsonValue.vNone JsonValue.vNone JsonValue.vNone
      JsonValue.vNone JsonValue.vNone JsonValue.vNone JsonValue.vNone
      JsonValue.vNone ⟨[], [], []⟩ [("location", nullAnsweredState)] "location"
      nullAnsweredState ["location"] [("location", JsonValue.vStr "Remote")]).2.2.2
      (by intro kv hkv; rcases List.mem_singleton.mp hkv with rfl; exact ⟨by decide, by decide⟩)⟩

end Hireflow

namespace Hireflow

/-! ## C9: pending-field priority selection -/

/-- Five unanswered fields, none of them on the priority list. -/
def fiveUnanswered : ConvFields :=
  [("name", zeroFieldState), ("email", zeroFieldState), ("phone", zeroFieldState),
   ("education", zeroFieldState), ("currentCompany", zeroFieldState)]

/-- C9 counterexample: on a profile with 5 unanswered fields none of which
is on the priority list, the selection step of
`generate_conversational_message` returns the empty list — not 3 field
names: pending fields outside the priority list are dropped entirely. -/
theorem prioritySelection_counterexample :
    (getPendingFieldsMsg fiveUnanswered).length = 5 ∧
    (∀ kv ∈ fiveUnanswered, kv.2.answered = false) ∧
    limitPendingFields (getPendingFieldsMsg fiveUnanswered) = [] ∧
    ([] : List String).length ≠ 3 := by
  refine ⟨by decide, by decide, by decide, by decide⟩

/-- C9 amended: when more than 3 fields are pending, the selection keeps
only the pending fields that appear on the fixed priority list (location,
notice period, expected salary, availability, portfolio URL), in priority
order, truncated to 3 — pending fields outside the priority list are
dropped, so the result has `min 3 |pending ∩ priority|` names, possibly
fewer than 3. With 3 or fewer pending fields the list is returned unchanged
and unordered. -/
theorem prioritySelection_behaviour (pending : List String) :
    (3 < pending.length →
      limitPendingFields pending =
        (priorityOrder.filter (fun f => pending.contains f)).take 3 ∧
      (limitPendingFields pending).length =
        min 3 (priorityOrder.filter (fun f => pending.contains f)).length ∧
      List.Sublist (limitPendingFields pending) priorityOrder ∧
      ∀ f ∈ limitPendingFields pending, pending.contains f = true) ∧
    (pending.length ≤ 3 → limitPendingFields pending = pending) := by
  constructor
  · intro h
    have heq : limitPendingFields pending =
        (priorityOrder.filter (fun f => pending.contains f)).take 3 := by
      unfold limitPendingFields
      rw [if_pos h]
    refine ⟨heq, ?_, ?_, ?_⟩
    · rw [heq]
      exact List.length_take 3 _
    · rw [heq]
      exact (List.take_sublist 3 _).trans (List.filter_sublist _)
    · intro f hf
      rw [heq] at hf
      have hf2 : f ∈ priorityOrder.filter (fun f => pending.contains f) :=
        (List.take_sublist 3 _).subset hf
      exact (List.mem_filter.mp hf2).2
  · intro h
    unfold limitPendingFields
    rw [if_neg (by omega)]

/-- C9 witness: the amended selection applied to 5 pending fields (only one
on the priority list, which is all that gets returned) and to 2 pending
fields (returned unchanged). -/
theorem prioritySelection_behaviour_witness :
    limitPendingFields ["name", "email", "phone", "education", "location"] =
      (priorityOrder.filter
        (fun f => (["name", "email", "phone", "education", "location"] :
          List String).contains f)).take 3 ∧
    limitPendingFields ["notice_period", "name"] = ["notice_period", "name"] :=
  ⟨((prioritySelection_behaviour
      ["name", "email", "phone", "education", "location"]).1 (by decide)).1,
   (prioritySelection_behaviour ["notice_period", "name"]).2 (by decide)⟩

end Hireflow
